import Mathlib

/-!
Verification of `magenta/models/accompaniment_rnn/accompaniment_rnn_generator.py`
(`AccompanimentRnnSequenceGenerator`): a shallow embedding of the generation
pipeline (`_generate`, `_seconds_to_steps`) and proofs of its specified
properties.  External collaborators (`magenta.music` quantization / melody
extraction, the model's `generate_melody_pair`, `Melody.to_sequence`,
`random.randint`) are opaque parameters gathered in an `Env` structure; the
control flow, checks and data manipulation of `_generate` itself are embedded
faithfully.  Times are rationals (Python floats modelled exactly), steps are
integers.
-/

namespace AccompanimentRnn

/-- The module-level constant `STEPS_PER_QUARTER = 4` (line 29 of the source). -/
def STEPS_PER_QUARTER : ℕ := 4

/-- The constant `magenta.music.DEFAULT_QUARTERS_PER_MINUTE` (120 in magenta). -/
def DEFAULT_QUARTERS_PER_MINUTE : ℚ := 120

/-- The constant `magenta.music.constants.MELODY_NO_EVENT` (-2 in magenta). -/
def MELODY_NO_EVENT : ℤ := -2

/-- One note of a NoteSequence protobuf: instrument id, pitch, and its
start / end times in seconds. -/
structure Note where
  instrument : ℤ
  pitch : ℤ
  start_time : ℚ
  end_time : ℚ
deriving DecidableEq

/-- One tempo entry of a NoteSequence protobuf. -/
structure Tempo where
  qpm : ℚ
deriving DecidableEq

/-- A NoteSequence protobuf: the fields `_generate` reads. -/
structure NoteSequence where
  notes : List Note
  tempos : List Tempo
deriving DecidableEq

/-- A `GeneratorOptions.input_sections` / `generate_sections` entry:
a time window. -/
structure SectionMsg where
  start_time : ℚ
  end_time : ℚ
deriving DecidableEq

/-- The `generator_pb2.GeneratorOptions` fields `_generate` reads: the input
window list, the generate window list, and the optional `temperature` float
argument from `generator_options.args`. -/
structure GeneratorOptions where
  input_sections : List SectionMsg
  generate_sections : List SectionMsg
  temperature : Option ℚ
deriving DecidableEq

/-- A monophonic melody: a per-step event list (pitch, note-off or
`MELODY_NO_EVENT`) anchored at `start_step`. -/
structure Melody where
  events : List ℤ
  start_step : ℤ
deriving DecidableEq

/-- Modelled from the spec: `Melody.set_length` is code of this repository not
under `src/`.  Spec 4.2 post-condition: the melody "is forcibly
truncated/extended to span exactly" the requested number of steps; extension
pads with the "no event" marker.  A non-positive requested length leaves an
empty event list (Python list slicing/multiplication with a non-positive
count yields the empty list). -/
def Melody.set_length (m : Melody) (n : ℤ) : Melody :=
  { m with
    events := m.events.take n.toNat ++
      List.replicate (n.toNat - m.events.length) MELODY_NO_EVENT }

/-- The failure cases of `_generate`.  Each `SequenceGeneratorException`
raise site becomes one constructor carrying the values interpolated into its
message; `assertionFailure` is the `assert 1 <= len(extracted_melodies) <= 2`
statement at line 115, which raises a plain `AssertionError` (not a
`SequenceGeneratorException`). -/
inductive GenErr where
  | tooManyInputSections (n : ℕ)
  | wrongGenerateSections (n : ℕ)
  | sectionBeforeAccompanimentEnd (requested_start accompaniment_end : ℚ)
  | assertionFailure
  | beforePredictahead (predictahead_steps requested_step : ℤ)
  | badMelodyCount (n : ℕ)
deriving DecidableEq

/-- Instrumentation trace: which collaborators `_generate` invoked, in order.
`modelCall` records the arguments of the single
`self._model.generate_melody_pair` call together with the (possibly adjusted)
`start_step` in effect at that point. -/
inductive Event where
  | quantize
  | extractMelodies
  | warnNoAccompaniment
  | modelCall (num_steps start_step : ℤ) (primer : Melody × Melody)
      (temperature : ℚ)
deriving DecidableEq

/-- The external collaborators of `_generate`, all code of this repository not
under `src/` (or the Python standard library), treated as opaque functions:
`magenta.music.extract_subsequence`, quantization followed by
`magenta.music.extract_melodies` (fused, since `_generate` always composes
them with its fixed policy arguments), the model's `predictahead_steps`
property and `generate_melody_pair` method, `Melody.to_sequence`, and
`random.randint` (both bounds inclusive). -/
structure Env where
  predictahead_steps : ℤ
  extract_subsequence : NoteSequence → ℚ → ℚ → NoteSequence
  extract_melodies : NoteSequence → ℕ → List Melody
  generate_melody_pair : ℤ → Melody × Melody → ℚ → Melody × Melody
  to_sequence : Melody → ℤ → ℚ → NoteSequence
  randint : ℤ → ℤ → ℤ

/-- Python `int()` applied to an exact rational value: truncation toward
zero, which is what `int(seconds * (qpm / 60.0) * self._steps_per_quarter)`
performs on its float argument. -/
def pyInt (q : ℚ) : ℤ :=
  Int.tdiv q.num q.den

/-- The method `_seconds_to_steps(seconds, qpm)` (lines 59-71):
`int(seconds * (qpm / 60.0) * self._steps_per_quarter)` with
`self._steps_per_quarter = STEPS_PER_QUARTER`. -/
def seconds_to_steps (seconds qpm : ℚ) : ℤ :=
  pyInt (seconds * (qpm / 60) * (STEPS_PER_QUARTER : ℚ))

/-- Lines 93-96: the maximum `end_time` over instrument-1 notes, 0 when there
are none (`max(accompaniment_end_times) if accompaniment_end_times else 0`). -/
def accompanimentEndTime (s : NoteSequence) : ℚ :=
  match (s.notes.filter (fun n => n.instrument == 1)).map (fun n => n.end_time) with
  | [] => 0
  | t :: ts => ts.foldl max t

/-- Lines 87-91: when an input section is present, the input sequence is
restricted to it via `magenta.music.extract_subsequence`. -/
def windowedInput (env : Env) (input_sequence : NoteSequence)
    (opts : GeneratorOptions) : NoteSequence :=
  match opts.input_sections with
  | [] => input_sequence
  | sec :: _ => env.extract_subsequence input_sequence sec.start_time sec.end_time

/-- Lines 117-118: the qpm of the sequence's first tempo when present, else
`DEFAULT_QUARTERS_PER_MINUTE` (a protobuf message is always truthy, so the
condition reduces to the tempo list being nonempty). -/
def resolveQpm (s : NoteSequence) : ℚ :=
  match s.tempos with
  | [] => DEFAULT_QUARTERS_PER_MINUTE
  | t :: _ => t.qpm

/-- Lines 83-84: `args['temperature'].float_value` when present, else 1.0. -/
def resolveTemperature (opts : GeneratorOptions) : ℚ :=
  opts.temperature.getD 1

/-- Lines 149-158: truncate/extend the accompaniment up to `start_step`, form
the primer `MelodyPair`, invoke `generate_melody_pair(end_step - start_step,
primer_pair, temperature)`, convert melody 0 with `instrument=0` and melody 1
with `instrument=1` (both at `qpm`), extend the first sequence's notes with
the second's, and return. -/
def runModel (env : Env) (main_melody accompaniment : Melody)
    (start_step end_step : ℤ) (temperature qpm : ℚ) (events : List Event) :
    Except GenErr NoteSequence × List Event :=
  let accompaniment := accompaniment.set_length (start_step - accompaniment.start_step)
  let primer_pair := (main_melody, accompaniment)
  let generated_pair := env.generate_melody_pair (end_step - start_step) primer_pair temperature
  let sequence := env.to_sequence generated_pair.1 0 qpm
  (Except.ok { sequence with
      notes := sequence.notes ++ (env.to_sequence generated_pair.2 1 qpm).notes },
   events ++ [Event.modelCall (end_step - start_step) start_step primer_pair temperature])

/-- Lines 93-158 of `_generate`, after the two window-count checks and the
windowing: the accompaniment-end check, quantization + melody extraction, the
`assert 1 <= len(extracted_melodies) <= 2`, qpm resolution and time→step
conversion, the predict-ahead check, the 2/1/other melody-count dispatch
(fabricating an accompaniment and advancing `start_step` by 1 in the
one-melody case), and the model invocation. -/
def generateChecked (env : Env) (input_sequence : NoteSequence)
    (generate_section : SectionMsg) (temperature : ℚ) :
    Except GenErr NoteSequence × List Event :=
  let accompaniment_end_time := accompanimentEndTime input_sequence
  if accompaniment_end_time > generate_section.start_time then
    (Except.error (GenErr.sectionBeforeAccompanimentEnd
        generate_section.start_time accompaniment_end_time), [])
  else
    let extracted_melodies := env.extract_melodies input_sequence STEPS_PER_QUARTER
    let events := [Event.quantize, Event.extractMelodies]
    if extracted_melodies.length < 1 ∨ 2 < extracted_melodies.length then
      (Except.error GenErr.assertionFailure, events)
    else
      let qpm := resolveQpm input_sequence
      let start_step := seconds_to_steps generate_section.start_time qpm
      let end_step := seconds_to_steps generate_section.end_time qpm
      if start_step < env.predictahead_steps then
        (Except.error (GenErr.beforePredictahead env.predictahead_steps start_step),
         events)
      else
        match extracted_melodies with
        | [main_melody, accompaniment] =>
            runModel env main_melody accompaniment start_step end_step temperature qpm events
        | [main_melody] =>
            let accompaniment : Melody :=
              ⟨List.replicate (start_step - main_melody.start_step).toNat MELODY_NO_EVENT
                 ++ [env.randint 16 54],
               main_melody.start_step⟩
            runModel env main_melody accompaniment (start_step + 1) end_step temperature qpm
              (events ++ [Event.warnNoAccompaniment])
        | ms => (Except.error (GenErr.badMelodyCount ms.length), events)

/-- The method `_generate(input_sequence, generator_options)` (lines 73-159).  The two
window-count checks come first, in source order; then temperature resolution,
input windowing, and the rest of the pipeline. -/
def generate (env : Env) (input_sequence : NoteSequence)
    (opts : GeneratorOptions) : Except GenErr NoteSequence × List Event :=
  if 1 < opts.input_sections.length then
    (Except.error (GenErr.tooManyInputSections opts.input_sections.length), [])
  else
    match opts.generate_sections with
    | [generate_section] =>
        generateChecked env (windowedInput env input_sequence opts)
          generate_section (resolveTemperature opts)
    | gs => (Except.error (GenErr.wrongGenerateSections gs.length), [])

/-- Spec-shaped description of the merge step (spec 4.4 steps 11-12): convert
the first generated melody with instrument 0 and the second with instrument 1,
both at `qpm`, and append the latter's notes into the former. -/
def mergedOf (env : Env) (gp : Melody × Melody) (qpm : ℚ) : NoteSequence :=
  let sequence := env.to_sequence gp.1 0 qpm
  { sequence with notes := sequence.notes ++ (env.to_sequence gp.2 1 qpm).notes }

/-! ### Basic lemmas -/

theorem pyInt_eq_floor (q : ℚ) (h : 0 ≤ q) : pyInt q = ⌊q⌋ := by
  rw [Rat.floor_def, pyInt,
    Int.tdiv_eq_ediv (Rat.num_nonneg.mpr h) (Int.ofNat_nonneg _)]

theorem set_length_events_length (m : Melody) (n : ℤ) :
    (m.set_length n).events.length = n.toNat := by
  simp [Melody.set_length]
  omega

theorem set_length_start_step (m : Melody) (n : ℤ) :
    (m.set_length n).start_step = m.start_step := rfl

theorem set_length_eq_self (m : Melody) (n : ℤ) (h : n.toNat = m.events.length) :
    m.set_length n = m := by
  cases m with
  | mk events start_step => simp [Melody.set_length, h]

/-- Master structural lemma: every run of `generate` either fails, with a
trace free of model calls, or succeeds with the merged pair produced by a
single model call recorded at the end of the trace, whose arguments are the
primer pair and step counts actually used. -/
theorem generate_run_shape (env : Env) (s : NoteSequence) (opts : GeneratorOptions) :
    (∃ e evs, generate env s opts = (Except.error e, evs) ∧
       ∀ n st p t, Event.modelCall n st p t ∉ evs) ∨
    (∃ (gsec : SectionMsg) (main_melody acc : Melody) (adj_start : ℤ)
       (pre : List Event),
       opts.generate_sections = [gsec] ∧
       (pre = [Event.quantize, Event.extractMelodies] ∨
        pre = [Event.quantize, Event.extractMelodies, Event.warnNoAccompaniment]) ∧
       generate env s opts =
         (Except.ok (mergedOf env
             (env.generate_melody_pair
               (seconds_to_steps gsec.end_time (resolveQpm (windowedInput env s opts)) - adj_start)
               (main_melody, acc.set_length (adj_start - acc.start_step))
               (resolveTemperature opts))
             (resolveQpm (windowedInput env s opts))),
          pre ++ [Event.modelCall
             (seconds_to_steps gsec.end_time (resolveQpm (windowedInput env s opts)) - adj_start)
             adj_start
             (main_melody, acc.set_length (adj_start - acc.start_step))
             (resolveTemperature opts)])) := by
  unfold generate
  split
  · exact Or.inl ⟨_, _, rfl, by simp⟩
  · split
    next generate_section heq =>
      unfold generateChecked
      dsimp only
      split
      · exact Or.inl ⟨_, _, rfl, by simp⟩
      · split
        · exact Or.inl ⟨_, _, rfl, by simp⟩
        · split
          · exact Or.inl ⟨_, _, rfl, by simp⟩
          · split
            · rename_i main_melody acc hx
              exact Or.inr ⟨generate_section, main_melody, acc, _, _, heq, Or.inl rfl, rfl⟩
            · rename_i main_melody hx
              exact Or.inr ⟨generate_section, main_melody, _, _, _, heq, Or.inr rfl, rfl⟩
            · exact Or.inl ⟨_, _, rfl, by simp⟩
    next gs h =>
      exact Or.inl ⟨_, _, rfl, by simp⟩

/-! ### Concrete fixtures for witnesses -/

/-- A two-event main melody starting at step 0. -/
def testMelody0 : Melody := ⟨[60, 62], 0⟩

/-- A one-event accompaniment melody starting at step 0. -/
def testMelody1 : Melody := ⟨[40], 0⟩

/-- A concrete `to_sequence` collaborator: one note per event, tagged with the
requested instrument, tempo list carrying the requested qpm. -/
def testToSequence (m : Melody) (instrument : ℤ) (qpm : ℚ) : NoteSequence :=
  ⟨m.events.map (fun p => ⟨instrument, p, 0, 0⟩), [⟨qpm⟩]⟩

/-- Concrete environment whose extraction yields two melodies and whose model
echoes its primer. -/
def testEnv2 : Env :=
  { predictahead_steps := 0
    extract_subsequence := fun s _ _ => s
    extract_melodies := fun _ _ => [testMelody0, testMelody1]
    generate_melody_pair := fun _ p _ => p
    to_sequence := testToSequence
    randint := fun lo _ => lo }

/-- Same environment but extraction yields exactly one melody. -/
def testEnv1 : Env := { testEnv2 with extract_melodies := fun _ _ => [testMelody0] }

/-- Same environment but extraction yields zero melodies. -/
def testEnv0 : Env := { testEnv2 with extract_melodies := fun _ _ => [] }

/-- Same environment but extraction yields three melodies. -/
def testEnv3 : Env :=
  { testEnv2 with extract_melodies := fun _ _ => [testMelody0, testMelody1, testMelody1] }

/-- Same environment but the model requires 10 steps of priming. -/
def testEnvHigh : Env := { testEnv2 with predictahead_steps := 10 }

/-- An input sequence with no notes at qpm 60. -/
def testSeq : NoteSequence := ⟨[], [⟨60⟩]⟩

/-- An input sequence with one instrument-1 note ending at time 5, qpm 60. -/
def testSeqOverlap : NoteSequence := ⟨[⟨1, 50, 0, 5⟩], [⟨60⟩]⟩

/-- Options: no input window, one generate window from 1s to 2s
(steps 4 to 8 at qpm 60), no temperature argument. -/
def testOpts : GeneratorOptions := ⟨[], [⟨1, 2⟩], none⟩

/-- Options with two input windows. -/
def optsTwoInputs : GeneratorOptions := ⟨[⟨0, 1⟩, ⟨1, 2⟩], [⟨1, 2⟩], none⟩

/-- Options with zero generate windows. -/
def optsNoGenerate : GeneratorOptions := ⟨[], [], none⟩

theorem pyInt_ofNat (n : ℕ) : pyInt (n : ℚ) = n := by
  rw [pyInt_eq_floor _ (by exact_mod_cast Nat.cast_nonneg n)]
  exact Int.floor_natCast n

theorem sts_one_60 : seconds_to_steps 1 60 = 4 := by
  have h : (1 : ℚ) * ((60 : ℚ) / 60) * ((STEPS_PER_QUARTER : ℕ) : ℚ) = ((4 : ℕ) : ℚ) := by
    norm_num [STEPS_PER_QUARTER]
  rw [seconds_to_steps, h, pyInt_ofNat]
  norm_num

theorem sts_two_60 : seconds_to_steps 2 60 = 8 := by
  have h : (2 : ℚ) * ((60 : ℚ) / 60) * ((STEPS_PER_QUARTER : ℕ) : ℚ) = ((8 : ℕ) : ℚ) := by
    norm_num [STEPS_PER_QUARTER]
  rw [seconds_to_steps, h, pyInt_ofNat]
  norm_num

/-! ### Claims -/

/-- C8: for every non-negative `seconds` and positive `qpm`,
`seconds_to_steps(seconds, qpm)` equals
`floor(seconds * (qpm/60) * steps_per_quarter)` with `steps_per_quarter`
fixed at 4, truncating rather than rounding; in particular
`seconds_to_steps(0.9, 60) = 3`. -/
theorem seconds_to_steps_floor (seconds qpm : ℚ)
    (h1 : 0 ≤ seconds) (h2 : 0 < qpm) :
    seconds_to_steps seconds qpm =
      ⌊seconds * (qpm / 60) * ((STEPS_PER_QUARTER : ℕ) : ℚ)⌋ ∧
    STEPS_PER_QUARTER = 4 ∧
    seconds_to_steps (9/10) 60 = 3 := by
  refine ⟨?_, rfl, ?_⟩
  · exact pyInt_eq_floor _ (by positivity)
  · have h0 : (0 : ℚ) ≤ 9/10 * ((60 : ℚ) / 60) * ((STEPS_PER_QUARTER : ℕ) : ℚ) := by
      positivity
    rw [seconds_to_steps, pyInt_eq_floor _ h0]
    norm_num [STEPS_PER_QUARTER]

/-- Witness for C8 at `seconds = 9/10`, `qpm = 60`. -/
theorem seconds_to_steps_floor_witness :
    seconds_to_steps (9/10) 60 =
      ⌊(9/10 : ℚ) * ((60 : ℚ) / 60) * ((STEPS_PER_QUARTER : ℕ) : ℚ)⌋ ∧
    STEPS_PER_QUARTER = 4 ∧
    seconds_to_steps (9/10) 60 = 3 :=
  seconds_to_steps_floor (9/10) 60 (by norm_num) (by norm_num)

/-- With valid window counts, `generate` reduces to the checked pipeline on
the windowed input. -/
theorem generate_eq_checked (env : Env) (s : NoteSequence)
    (opts : GeneratorOptions) (gsec : SectionMsg)
    (h1 : opts.input_sections.length ≤ 1)
    (h2 : opts.generate_sections = [gsec]) :
    generate env s opts =
      generateChecked env (windowedInput env s opts) gsec (resolveTemperature opts) := by
  unfold generate
  rw [if_neg (by omega), h2]

/-- C5: more than one input window, or a number of output windows different
from one, makes `generate` fail with a `GenerationError` before any
quantization or melody extraction (empty collaborator trace); the input-window
check is evaluated first, then the output-window check. -/
theorem window_checks_first (env : Env) (input_sequence : NoteSequence)
    (opts : GeneratorOptions) :
    (1 < opts.input_sections.length →
       generate env input_sequence opts =
         (Except.error (GenErr.tooManyInputSections opts.input_sections.length), [])) ∧
    (opts.input_sections.length ≤ 1 → opts.generate_sections.length ≠ 1 →
       generate env input_sequence opts =
         (Except.error (GenErr.wrongGenerateSections opts.generate_sections.length), [])) := by
  constructor
  · intro h
    unfold generate
    rw [if_pos h]
  · intro h1 h2
    unfold generate
    rw [if_neg (by omega)]
    rcases hgs : opts.generate_sections with _ | ⟨g, _ | ⟨g2, gs⟩⟩
    · simp [hgs]
    · simp [hgs] at h2
    · simp [hgs]

/-- Witness for C5: a request with 2 input windows, and one with 0 output
windows, each rejected with an empty trace. -/
theorem window_checks_first_witness :
    generate testEnv2 testSeq optsTwoInputs =
      (Except.error (GenErr.tooManyInputSections 2), []) ∧
    generate testEnv2 testSeq optsNoGenerate =
      (Except.error (GenErr.wrongGenerateSections 0), []) :=
  ⟨(window_checks_first testEnv2 testSeq optsTwoInputs).1 (by decide),
   (window_checks_first testEnv2 testSeq optsNoGenerate).2 (by decide) (by decide)⟩

/-- C6: with valid window counts, `generate` fails with the
accompaniment-overlap `GenerationError` exactly when the maximum end time of
instrument-1 notes in the (optionally windowed) input is strictly greater
than the output window's start time; a sequence with no instrument-1 notes
has maximum end time 0, and equality of the two times is accepted. -/
theorem accompaniment_overlap_check (env : Env) (input_sequence : NoteSequence)
    (opts : GeneratorOptions) (gsec : SectionMsg)
    (h1 : opts.input_sections.length ≤ 1)
    (h2 : opts.generate_sections = [gsec]) :
    ((generate env input_sequence opts).1 =
        Except.error (GenErr.sectionBeforeAccompanimentEnd gsec.start_time
          (accompanimentEndTime (windowedInput env input_sequence opts))) ↔
      accompanimentEndTime (windowedInput env input_sequence opts) > gsec.start_time) ∧
    ∀ s : NoteSequence, s.notes.filter (fun n => n.instrument == 1) = [] →
      accompanimentEndTime s = 0 := by
  constructor
  · rw [generate_eq_checked env input_sequence opts gsec h1 h2]
    unfold generateChecked
    dsimp only
    split
    · rename_i hgt
      simpa using hgt
    · rename_i hle
      refine iff_of_false ?_ hle
      intro hcontra
      split at hcontra
      · simp at hcontra
      · split at hcontra
        · simp at hcontra
        · split at hcontra
          · simp [runModel] at hcontra
          · simp [runModel] at hcontra
          · simp at hcontra
  · intro s hs
    simp [accompanimentEndTime, hs]

/-- Witness for C6: an instrument-1 note ending at time 5 with a generate
window starting at time 1 is rejected with the overlap error. -/
theorem accompaniment_overlap_check_witness :
    (generate testEnv2 testSeqOverlap testOpts).1 =
      Except.error (GenErr.sectionBeforeAccompanimentEnd 1 5) := by
  have h := (accompaniment_overlap_check testEnv2 testSeqOverlap testOpts
    ⟨1, 2⟩ (by decide) rfl).1
  rw [show accompanimentEndTime (windowedInput testEnv2 testSeqOverlap testOpts) = 5
    from rfl] at h
  exact h.mpr (by norm_num)

/-- C7: once the window checks, the overlap check and the melody-count assert
pass, `generate` fails with the predict-ahead `GenerationError` exactly when
the converted start step (before any fallback adjustment) is strictly less
than the model's `predictahead_steps`; equality is accepted. -/
theorem predictahead_check (env : Env) (input_sequence : NoteSequence)
    (opts : GeneratorOptions) (gsec : SectionMsg)
    (h1 : opts.input_sections.length ≤ 1)
    (h2 : opts.generate_sections = [gsec])
    (h3 : ¬ accompanimentEndTime (windowedInput env input_sequence opts) > gsec.start_time)
    (h4 : 1 ≤ (env.extract_melodies (windowedInput env input_sequence opts) STEPS_PER_QUARTER).length)
    (h5 : (env.extract_melodies (windowedInput env input_sequence opts) STEPS_PER_QUARTER).length ≤ 2) :
    (generate env input_sequence opts).1 =
        Except.error (GenErr.beforePredictahead env.predictahead_steps
          (seconds_to_steps gsec.start_time (resolveQpm (windowedInput env input_sequence opts)))) ↔
      seconds_to_steps gsec.start_time (resolveQpm (windowedInput env input_sequence opts)) <
        env.predictahead_steps := by
  rw [generate_eq_checked env input_sequence opts gsec h1 h2]
  unfold generateChecked
  dsimp only
  rw [if_neg h3, if_neg (by omega)]
  split
  · rename_i hlt
    simpa using hlt
  · rename_i hge
    refine iff_of_false ?_ hge
    intro hcontra
    split at hcontra
    · simp [runModel] at hcontra
    · simp [runModel] at hcontra
    · simp at hcontra

/-- Witness for C7: a model requiring 10 priming steps rejects a request whose
converted start step is 4. -/
theorem predictahead_check_witness :
    (generate testEnvHigh testSeq testOpts).1 =
      Except.error (GenErr.beforePredictahead 10 4) := by
  have h := predictahead_check testEnvHigh testSeq testOpts ⟨1, 2⟩
    (by decide) rfl
    (by norm_num [accompanimentEndTime, windowedInput, testSeq, testOpts])
    (by decide) (by decide)
  rw [show resolveQpm (windowedInput testEnvHigh testSeq testOpts) = 60 from rfl,
    show (SectionMsg.mk (1 : ℚ) 2).start_time = 1 from rfl, sts_one_60] at h
  exact h.mpr (by decide)

/-- C2 (code bug): when melody extraction yields 0 melodies or more than 2,
the embedded `_generate` fails via the `assert 1 <= len(extracted_melodies)
<= 2` at line 115 — a plain `AssertionError` — and never reaches the
`SequenceGeneratorException` raise at lines 144-147 that would name the
count, so no `GenerationError` naming the count is produced. -/
theorem melody_count_assert_preempts_count_error :
    (generate testEnv3 testSeq testOpts).1 = Except.error GenErr.assertionFailure ∧
    (generate testEnv0 testSeq testOpts).1 = Except.error GenErr.assertionFailure ∧
    (∀ n, (generate testEnv3 testSeq testOpts).1 ≠
      Except.error (GenErr.badMelodyCount n)) ∧
    (∀ n, (generate testEnv0 testSeq testOpts).1 ≠
      Except.error (GenErr.badMelodyCount n)) := by
  have htrue3 : (generate testEnv3 testSeq testOpts).1 = Except.error GenErr.assertionFailure := by
    rw [generate_eq_checked testEnv3 testSeq testOpts ⟨1, 2⟩ (by decide) rfl]
    unfold generateChecked
    dsimp only
    rw [if_neg (by norm_num [accompanimentEndTime, windowedInput, testSeq, testOpts]),
      if_pos (by decide)]
  have htrue0 : (generate testEnv0 testSeq testOpts).1 = Except.error GenErr.assertionFailure := by
    rw [generate_eq_checked testEnv0 testSeq testOpts ⟨1, 2⟩ (by decide) rfl]
    unfold generateChecked
    dsimp only
    rw [if_neg (by norm_num [accompanimentEndTime, windowedInput, testSeq, testOpts]),
      if_pos (by decide)]
  refine ⟨htrue3, htrue0, ?_, ?_⟩
  · intro n
    rw [htrue3]
    simp
  · intro n
    rw [htrue0]
    simp

/-- C3: with exactly one extracted melody (and the earlier checks passing),
`generate` does not fail: it emits the no-accompaniment warning, fabricates an
accompaniment anchored at the main melody's start step consisting of
`start_step - main_melody.start_step` no-event markers followed by one pitch
obtained from the uniform sampler called with inclusive bounds 16 and 54
(hence lying in that range), and invokes the model with the start step
advanced by 1. -/
theorem one_melody_fallback (env : Env) (input_sequence : NoteSequence)
    (opts : GeneratorOptions) (gsec : SectionMsg) (main_melody : Melody)
    (h1 : opts.input_sections.length ≤ 1)
    (h2 : opts.generate_sections = [gsec])
    (h3 : ¬ accompanimentEndTime (windowedInput env input_sequence opts) > gsec.start_time)
    (h4 : env.extract_melodies (windowedInput env input_sequence opts) STEPS_PER_QUARTER =
      [main_melody])
    (h5 : env.predictahead_steps ≤
      seconds_to_steps gsec.start_time (resolveQpm (windowedInput env input_sequence opts)))
    (h6 : main_melody.start_step ≤
      seconds_to_steps gsec.start_time (resolveQpm (windowedInput env input_sequence opts)))
    (hr : 16 ≤ env.randint 16 54 ∧ env.randint 16 54 ≤ 54) :
    (∃ out, (generate env input_sequence opts).1 = Except.ok out) ∧
    Event.warnNoAccompaniment ∈ (generate env input_sequence opts).2 ∧
    Event.modelCall
        (seconds_to_steps gsec.end_time (resolveQpm (windowedInput env input_sequence opts)) -
          (seconds_to_steps gsec.start_time (resolveQpm (windowedInput env input_sequence opts)) + 1))
        (seconds_to_steps gsec.start_time (resolveQpm (windowedInput env input_sequence opts)) + 1)
        (main_melody,
          ⟨List.replicate
              (seconds_to_steps gsec.start_time (resolveQpm (windowedInput env input_sequence opts)) -
                main_melody.start_step).toNat MELODY_NO_EVENT ++ [env.randint 16 54],
           main_melody.start_step⟩)
        (resolveTemperature opts) ∈ (generate env input_sequence opts).2 ∧
    16 ≤ env.randint 16 54 ∧ env.randint 16 54 ≤ 54 := by
  rw [generate_eq_checked env input_sequence opts gsec h1 h2]
  unfold generateChecked
  dsimp only
  rw [if_neg h3, h4, if_neg (by simp), if_neg (not_lt.mpr h5)]
  unfold runModel
  dsimp only
  rw [set_length_eq_self _ _ (by simp; omega)]
  refine ⟨⟨_, rfl⟩, by simp, by simp, hr⟩

/-- Witness for C3 at an environment extracting exactly one melody: the run
succeeds, warns, and calls the model at start step 5 = 4 + 1 with the
fabricated accompaniment (4 no-event markers then the sampled pitch 16). -/
theorem one_melody_fallback_witness :
    (∃ out, (generate testEnv1 testSeq testOpts).1 = Except.ok out) ∧
    Event.warnNoAccompaniment ∈ (generate testEnv1 testSeq testOpts).2 ∧
    Event.modelCall 3 5 (testMelody0, ⟨List.replicate 4 MELODY_NO_EVENT ++ [16], 0⟩) 1 ∈
      (generate testEnv1 testSeq testOpts).2 ∧
    (16 : ℤ) ≤ 16 ∧ (16 : ℤ) ≤ 54 := by
  have h := one_melody_fallback testEnv1 testSeq testOpts ⟨1, 2⟩ testMelody0
    (by decide) rfl
    (by norm_num [accompanimentEndTime, windowedInput, testSeq, testOpts])
    rfl
    (by rw [show resolveQpm (windowedInput testEnv1 testSeq testOpts) = 60 from rfl,
          show (SectionMsg.mk (1 : ℚ) 2).start_time = 1 from rfl, sts_one_60]
        decide)
    (by rw [show resolveQpm (windowedInput testEnv1 testSeq testOpts) = 60 from rfl,
          show (SectionMsg.mk (1 : ℚ) 2).start_time = 1 from rfl, sts_one_60]
        decide)
    (by decide)
  rw [show resolveQpm (windowedInput testEnv1 testSeq testOpts) = 60 from rfl,
    show (SectionMsg.mk (1 : ℚ) 2).start_time = 1 from rfl,
    show (SectionMsg.mk (1 : ℚ) 2).end_time = 2 from rfl,
    sts_one_60, sts_two_60,
    show testMelody0.start_step = 0 from rfl,
    show testEnv1.randint 16 54 = 16 from rfl,
    show resolveTemperature testOpts = 1 from rfl,
    show (8 : ℤ) - (4 + 1) = 3 from by norm_num,
    show (4 : ℤ) + 1 = 5 from by norm_num,
    show ((4 : ℤ) - 0).toNat = 4 from by decide] at h
  exact h

/-- C10: in the one-melody fallback path the model is asked for
`end_step - start_step - 1` steps — one fewer than the two-melody path
requests for the same output window — because the start step is incremented
by 1 after conversion; the incremented start step is not re-checked against
`predictahead_steps` (the fallback run succeeds under only the original
check). -/
theorem fallback_requests_one_fewer_step (env : Env)
    (input_sequence : NoteSequence) (opts : GeneratorOptions) (gsec : SectionMsg)
    (h1 : opts.input_sections.length ≤ 1)
    (h2 : opts.generate_sections = [gsec])
    (h3 : ¬ accompanimentEndTime (windowedInput env input_sequence opts) > gsec.start_time)
    (h5 : env.predictahead_steps ≤
      seconds_to_steps gsec.start_time (resolveQpm (windowedInput env input_sequence opts))) :
    (∀ main_melody : Melody,
       env.extract_melodies (windowedInput env input_sequence opts) STEPS_PER_QUARTER =
         [main_melody] →
       (∃ out, (generate env input_sequence opts).1 = Except.ok out) ∧
       ∃ primer : Melody × Melody,
         Event.modelCall
           (seconds_to_steps gsec.end_time (resolveQpm (windowedInput env input_sequence opts)) -
             seconds_to_steps gsec.start_time (resolveQpm (windowedInput env input_sequence opts)) - 1)
           (seconds_to_steps gsec.start_time (resolveQpm (windowedInput env input_sequence opts)) + 1)
           primer (resolveTemperature opts) ∈ (generate env input_sequence opts).2) ∧
    (∀ m a : Melody,
       env.extract_melodies (windowedInput env input_sequence opts) STEPS_PER_QUARTER = [m, a] →
       ∃ primer : Melody × Melody,
         Event.modelCall
           (seconds_to_steps gsec.end_time (resolveQpm (windowedInput env input_sequence opts)) -
             seconds_to_steps gsec.start_time (resolveQpm (windowedInput env input_sequence opts)))
           (seconds_to_steps gsec.start_time (resolveQpm (windowedInput env input_sequence opts)))
           primer (resolveTemperature opts) ∈ (generate env input_sequence opts).2) := by
  rw [generate_eq_checked env input_sequence opts gsec h1 h2]
  constructor
  · intro main_melody h4
    unfold generateChecked
    dsimp only
    rw [if_neg h3, h4, if_neg (by simp), if_neg (not_lt.mpr h5)]
    unfold runModel
    dsimp only
    rw [show seconds_to_steps gsec.end_time (resolveQpm (windowedInput env input_sequence opts)) -
        seconds_to_steps gsec.start_time (resolveQpm (windowedInput env input_sequence opts)) - 1 =
        seconds_to_steps gsec.end_time (resolveQpm (windowedInput env input_sequence opts)) -
        (seconds_to_steps gsec.start_time (resolveQpm (windowedInput env input_sequence opts)) + 1)
      from by ring]
    exact ⟨⟨_, rfl⟩, ⟨_, List.mem_append_right _ (List.mem_singleton_self _)⟩⟩
  · intro m a h4
    unfold generateChecked
    dsimp only
    rw [if_neg h3, h4, if_neg (by simp), if_neg (not_lt.mpr h5)]
    unfold runModel
    dsimp only
    exact ⟨_, List.mem_append_right _ (List.mem_singleton_self _)⟩

/-- Witness for C10: at the one-melody environment the model is called for
3 = (8 - 4) - 1 steps at start step 5, and the run succeeds. -/
theorem fallback_requests_one_fewer_step_witness :
    (∃ out, (generate testEnv1 testSeq testOpts).1 = Except.ok out) ∧
    ∃ primer : Melody × Melody,
      Event.modelCall 3 5 primer 1 ∈ (generate testEnv1 testSeq testOpts).2 := by
  have h := (fallback_requests_one_fewer_step testEnv1 testSeq testOpts ⟨1, 2⟩
    (by decide) rfl
    (by norm_num [accompanimentEndTime, windowedInput, testSeq, testOpts])
    (by rw [show resolveQpm (windowedInput testEnv1 testSeq testOpts) = 60 from rfl,
          show (SectionMsg.mk (1 : ℚ) 2).start_time = 1 from rfl, sts_one_60]
        decide)).1 testMelody0 rfl
  rw [show resolveQpm (windowedInput testEnv1 testSeq testOpts) = 60 from rfl,
    show (SectionMsg.mk (1 : ℚ) 2).start_time = 1 from rfl,
    show (SectionMsg.mk (1 : ℚ) 2).end_time = 2 from rfl,
    sts_one_60, sts_two_60,
    show resolveTemperature testOpts = 1 from rfl,
    show (8 : ℤ) - 4 - 1 = 3 from by norm_num,
    show (4 : ℤ) + 1 = 5 from by norm_num] at h
  exact h

/-- Concrete evaluation of the two-melody run: result and trace. -/
theorem generate_testEnv2_eval :
    generate testEnv2 testSeq testOpts =
      (Except.ok ⟨[⟨0, 60, 0, 0⟩, ⟨0, 62, 0, 0⟩, ⟨1, 40, 0, 0⟩, ⟨1, -2, 0, 0⟩,
          ⟨1, -2, 0, 0⟩, ⟨1, -2, 0, 0⟩], [⟨60⟩]⟩,
       [Event.quantize, Event.extractMelodies,
        Event.modelCall 4 4 (testMelody0, ⟨[40, -2, -2, -2], 0⟩) 1]) := by
  rw [generate_eq_checked testEnv2 testSeq testOpts ⟨1, 2⟩ (by decide) rfl]
  unfold generateChecked runModel
  dsimp only
  rw [if_neg (by norm_num [accompanimentEndTime, windowedInput, testSeq, testOpts]),
    show testEnv2.extract_melodies (windowedInput testEnv2 testSeq testOpts)
      STEPS_PER_QUARTER = [testMelody0, testMelody1] from rfl,
    if_neg (by decide),
    show resolveQpm (windowedInput testEnv2 testSeq testOpts) = 60 from rfl,
    sts_one_60, sts_two_60, if_neg (by decide)]
  dsimp only
  rw [show resolveTemperature testOpts = 1 from rfl]
  simp [testEnv2, testMelody0, testMelody1, testToSequence, Melody.set_length,
    MELODY_NO_EVENT, List.replicate]

/-- C4: whenever the model is invoked, via either path, the primer
accompaniment's length equals the (possibly adjusted) start step minus the
accompaniment's start step: the primer accompaniment ends exactly at the
generation boundary. -/
theorem primer_accompaniment_spans_to_start (env : Env)
    (input_sequence : NoteSequence) (opts : GeneratorOptions)
    (num_steps st : ℤ) (primer : Melody × Melody) (t : ℚ)
    (hmem : Event.modelCall num_steps st primer t ∈ (generate env input_sequence opts).2)
    (hst : primer.2.start_step ≤ st) :
    (primer.2.events.length : ℤ) = st - primer.2.start_step := by
  rcases generate_run_shape env input_sequence opts with
    ⟨e, evs, heq, hno⟩ | ⟨gsec, m, acc, adj, pre, hgs, hpre, heq⟩
  · rw [heq] at hmem
    exact absurd hmem (hno _ _ _ _)
  · rw [heq] at hmem
    dsimp only at hmem
    rcases hpre with hp | hp <;> rw [hp] at hmem <;> simp at hmem <;>
      obtain ⟨hn, hsteq, hpeq, hteq⟩ := hmem <;> subst hsteq <;> subst hpeq <;>
      rw [set_length_events_length] <;>
      rw [set_length_start_step] at hst ⊢ <;> omega

/-- Witness for C4: at the two-melody run the primer accompaniment
`⟨[40, -2, -2, -2], 0⟩` has length 4 = 4 - 0. -/
theorem primer_accompaniment_spans_to_start_witness :
    ((Melody.mk [40, -2, -2, -2] 0).events.length : ℤ) =
      4 - (Melody.mk [40, -2, -2, -2] 0).start_step := by
  refine primer_accompaniment_spans_to_start testEnv2 testSeq testOpts 4 4
    (testMelody0, ⟨[40, -2, -2, -2], 0⟩) 1 ?_ (by decide)
  rw [generate_testEnv2_eval]
  simp

/-- The expected merged output of the two-melody run. -/
def testOutSeq : NoteSequence :=
  ⟨[⟨0, 60, 0, 0⟩, ⟨0, 62, 0, 0⟩, ⟨1, 40, 0, 0⟩, ⟨1, -2, 0, 0⟩,
    ⟨1, -2, 0, 0⟩, ⟨1, -2, 0, 0⟩], [⟨60⟩]⟩

/-- C1: every successful generation returns the sequence obtained by
converting the first generated melody with instrument id 0 and the second
with instrument id 1, both stamped with the resolved qpm, and appending the
latter's notes into the former; hence, when the converter tags notes with the
requested instrument, every output note carries instrument id 0 or 1. -/
theorem generate_success_merges_pair (env : Env) (input_sequence : NoteSequence)
    (opts : GeneratorOptions) (out : NoteSequence)
    (hto : ∀ (m : Melody) (i : ℤ) (q : ℚ), ∀ n ∈ (env.to_sequence m i q).notes,
      n.instrument = i)
    (hok : (generate env input_sequence opts).1 = Except.ok out) :
    ∃ (num_steps st : ℤ) (primer : Melody × Melody),
      Event.modelCall num_steps st primer (resolveTemperature opts) ∈
        (generate env input_sequence opts).2 ∧
      out = mergedOf env
        (env.generate_melody_pair num_steps primer (resolveTemperature opts))
        (resolveQpm (windowedInput env input_sequence opts)) ∧
      ∀ n ∈ out.notes, n.instrument = 0 ∨ n.instrument = 1 := by
  rcases generate_run_shape env input_sequence opts with
    ⟨e, evs, heq, hno⟩ | ⟨gsec, m, acc, adj, pre, hgs, hpre, heq⟩
  · rw [heq] at hok
    simp at hok
  · rw [heq] at hok
    dsimp only at hok
    rw [Except.ok.injEq] at hok
    refine ⟨_, adj, _, ?_, hok.symm, ?_⟩
    · rw [heq]
      simp
    · intro n hn
      rw [← hok] at hn
      unfold mergedOf at hn
      dsimp only at hn
      rw [List.mem_append] at hn
      rcases hn with hn | hn
      · exact Or.inl (hto _ _ _ n hn)
      · exact Or.inr (hto _ _ _ n hn)

/-- Witness for C1 at the two-melody run. -/
theorem generate_success_merges_pair_witness :
    ∃ (num_steps st : ℤ) (primer : Melody × Melody),
      Event.modelCall num_steps st primer (resolveTemperature testOpts) ∈
        (generate testEnv2 testSeq testOpts).2 ∧
      testOutSeq = mergedOf testEnv2
        (testEnv2.generate_melody_pair num_steps primer (resolveTemperature testOpts))
        (resolveQpm (windowedInput testEnv2 testSeq testOpts)) ∧
      ∀ n ∈ testOutSeq.notes, n.instrument = 0 ∨ n.instrument = 1 := by
  refine generate_success_merges_pair testEnv2 testSeq testOpts testOutSeq ?_ ?_
  · intro m i q n hn
    simp [testEnv2, testToSequence] at hn
    obtain ⟨p, hp, rfl⟩ := hn
    rfl
  · rw [generate_testEnv2_eval]
    rfl

/-- C9: whenever `generate` fails with any error, the model's pair-generation
operation was never invoked: the failing trace contains no `modelCall`
event. -/
theorem no_model_call_on_error (env : Env) (input_sequence : NoteSequence)
    (opts : GeneratorOptions) (e : GenErr)
    (h : (generate env input_sequence opts).1 = Except.error e) :
    ∀ (n st : ℤ) (p : Melody × Melody) (t : ℚ),
      Event.modelCall n st p t ∉ (generate env input_sequence opts).2 := by
  rcases generate_run_shape env input_sequence opts with
    ⟨e2, evs, heq, hno⟩ | ⟨gsec, m, acc, adj, pre, hgs, hpre, heq⟩
  · intro n st p t
    rw [heq]
    exact hno n st p t
  · rw [heq] at h
    simp at h

/-- Witness for C9 at a failing request (two input windows). -/
theorem no_model_call_on_error_witness :
    Event.modelCall 0 0 (testMelody0, testMelody0) 1 ∉
      (generate testEnv2 testSeq optsTwoInputs).2 :=
  no_model_call_on_error testEnv2 testSeq optsTwoInputs
    (GenErr.tooManyInputSections 2) rfl 0 0 (testMelody0, testMelody0) 1

end AccompanimentRnn
